import Mathlib

/-!
Shallow embedding of parts of the ape-dts replication tool:
  * `dt-common/src/config/task_config.rs` — task configuration loading,
  * `dt-common/src/meta/struct_meta/statement/pg_create_table_statement.rs` —
    Postgres DDL statement generation,
  * `dt-pipeline/src/filters/traits.rs` — the transaction-filter contract
    (its implementation is modelled from the specification).
-/

namespace ApeDts

/-- Error taxonomy used by the configuration loader and the filters
(`dt-common/src/error.rs` is referenced by the sources; only the two
variants the embedded code constructs are modelled). -/
inductive Error where
  | ConfigError (msg : String)
  | DataError (msg : String)
  deriving DecidableEq, Repr

/-- Database kinds. Modelled from the spec: the enum itself lives in
`config_enums.rs` (outside the given sources); the variants are exactly
those matched in `task_config.rs`. -/
inductive DbType where
  | Mysql | Pg | Mongo | Redis | Kafka | StarRocks | Foxlake
  deriving DecidableEq, Repr

/-- Extraction modes. Modelled from the spec: the enum lives in
`config_enums.rs` (outside the given sources); the variants are exactly
those matched in `task_config.rs`. -/
inductive ExtractType where
  | Snapshot | Cdc | CheckLog | Struct | SnapshotFile | Scan | Reshard | FoxlakeS3
  deriving DecidableEq, Repr

/-- Sink modes. Modelled from the spec: the enum lives in `config_enums.rs`
(outside the given sources); the variants are those matched in
`task_config.rs`. -/
inductive SinkType where
  | Write | Check | Struct | Sql | Statistic | Dummy | Push | Merge
  deriving DecidableEq, Repr

/-- Conflict policy for structural sinks. Modelled from the spec:
the enum lives outside the given sources. -/
inductive ConflictPolicyEnum where
  | Ignore | Interrupt
  deriving DecidableEq, Repr

/-- Parallelism strategy identifier. Modelled from the spec: only the
parsed name matters to the embedded configuration code. -/
structure ParallelType where
  name : String
  deriving DecidableEq, Repr

def DbType.toStr : DbType → String
  | .Mysql => "mysql"
  | .Pg => "pg"
  | .Mongo => "mongo"
  | .Redis => "redis"
  | .Kafka => "kafka"
  | .StarRocks => "starrocks"
  | .Foxlake => "foxlake"

/-- Modelled from the spec: `DbType::from_str` (the `FromStr` derivation
lives outside the given sources) maps each db-type name to its variant and
fails with a `ConfigError` otherwise. -/
def DbType.from_str (s : String) : Except Error DbType :=
  if s = "mysql" then .ok .Mysql
  else if s = "pg" then .ok .Pg
  else if s = "mongo" then .ok .Mongo
  else if s = "redis" then .ok .Redis
  else if s = "kafka" then .ok .Kafka
  else if s = "starrocks" then .ok .StarRocks
  else if s = "foxlake" then .ok .Foxlake
  else .error (.ConfigError ("unknown db type: " ++ s))

def ExtractType.toStr : ExtractType → String
  | .Snapshot => "snapshot"
  | .Cdc => "cdc"
  | .CheckLog => "check_log"
  | .Struct => "struct"
  | .SnapshotFile => "snapshot_file"
  | .Scan => "scan"
  | .Reshard => "reshard"
  | .FoxlakeS3 => "foxlake_s3"

/-- Modelled from the spec: `ExtractType::from_str` maps each extract-type
name to its variant and fails with a `ConfigError` otherwise. -/
def ExtractType.from_str (s : String) : Except Error ExtractType :=
  if s = "snapshot" then .ok .Snapshot
  else if s = "cdc" then .ok .Cdc
  else if s = "check_log" then .ok .CheckLog
  else if s = "struct" then .ok .Struct
  else if s = "snapshot_file" then .ok .SnapshotFile
  else if s = "scan" then .ok .Scan
  else if s = "reshard" then .ok .Reshard
  else if s = "foxlake_s3" then .ok .FoxlakeS3
  else .error (.ConfigError ("unknown extract type: " ++ s))

/-- Modelled from the spec: `SinkType::from_str`. -/
def SinkType.from_str (s : String) : Except Error SinkType :=
  if s = "write" then .ok .Write
  else if s = "check" then .ok .Check
  else if s = "struct" then .ok .Struct
  else if s = "sql" then .ok .Sql
  else if s = "statistic" then .ok .Statistic
  else if s = "dummy" then .ok .Dummy
  else if s = "push" then .ok .Push
  else if s = "merge" then .ok .Merge
  else .error (.ConfigError ("unknown sink type: " ++ s))

/-- Modelled from the spec: `ConflictPolicyEnum::from_str`; an
unrecognised or empty policy falls back to `Interrupt`. -/
def ConflictPolicyEnum.from_str (s : String) : ConflictPolicyEnum :=
  if s = "ignore" then .Ignore else .Interrupt

/-- Modelled from the spec: `ParallelType::from_str` records the parsed
strategy name. -/
def ParallelType.from_str (s : String) : Except Error ParallelType :=
  .ok ⟨s⟩

/-- Model of Rust's numeric `FromStr` parsing for unsigned integers
(kernel-computable): all-digit nonempty strings parse, all others fail. -/
def parse_nat? (s : String) : Option Nat :=
  if s.data ≠ [] ∧ s.data.all (fun c => 48 ≤ c.toNat ∧ c.toNat ≤ 57) then
    some (s.data.foldl (fun acc c => acc * 10 + (c.toNat - 48)) 0)
  else none

/-- Model of Rust's `str::to_lowercase` for ASCII strings
(kernel-computable). -/
def str_to_lower (s : String) : String :=
  ⟨s.data.map fun c =>
    if 65 ≤ c.toNat ∧ c.toNat ≤ 90 then Char.ofNat (c.toNat + 32) else c⟩

/-- Model of Rust's `str::ends_with` for a single character
(kernel-computable). -/
def ends_with_char (s : String) (c : Char) : Bool :=
  decide (s.data.getLast? = some c)

/-- Model of the Rust slice `s[0..s.len() - 1]` dropping the final
character (kernel-computable). -/
def drop_last_char (s : String) : String :=
  ⟨s.data.dropLast⟩

/-- Fuel-indexed worker for `replace_all`; the fuel is the input length,
which bounds the number of steps since every step consumes at least one
character. -/
def replaceChars : Nat → List Char → List Char → List Char → List Char
  | 0, s, _, _ => s
  | _ + 1, [], _, _ => []
  | fuel + 1, c :: rest, patt, repl =>
    if patt ≠ [] ∧ patt.isPrefixOf (c :: rest) then
      repl ++ replaceChars fuel ((c :: rest).drop patt.length) patt repl
    else
      c :: replaceChars fuel rest patt repl

/-- Model of Rust's `str::replace` (kernel-computable): replaces every
non-overlapping occurrence of `patt` left to right. -/
def replace_all (s patt repl : String) : String :=
  ⟨replaceChars s.data.length s.data patt.data repl.data⟩

/-- Modelled from the spec: the INI configuration loader
(`ini_loader.rs`, "thin I/O glue") is a finite map from section and key
to an optional raw string value, plus the list of present sections. -/
structure IniLoader where
  sections : List String
  get : String → String → Option String

namespace IniLoader

/-- Modelled from the spec: `get_optional` for string-typed keys returns
the raw value, or the empty string when the key is absent. -/
def get_optional_str (l : IniLoader) (sec key : String) : String :=
  (l.get sec key).getD ""

/-- Modelled from the spec: `get_optional` for numeric keys returns the
parsed value, or `0` when the key is absent or unparsable. -/
def get_optional_nat (l : IniLoader) (sec key : String) : Nat :=
  ((l.get sec key).bind parse_nat?).getD 0

/-- Modelled from the spec: `get_optional` for boolean keys. -/
def get_optional_bool (l : IniLoader) (sec key : String) : Bool :=
  (l.get sec key).getD "" = "true"

/-- Modelled from the spec: `get_with_default` for numeric keys returns
the parsed value, or the supplied default when the key is absent or
unparsable. -/
def get_with_default_nat (l : IniLoader) (sec key : String) (d : Nat) : Nat :=
  match l.get sec key with
  | some v => (parse_nat? v).getD d
  | none => d

/-- Modelled from the spec: `get_with_default` for string-typed keys. -/
def get_with_default_str (l : IniLoader) (sec key d : String) : String :=
  (l.get sec key).getD d

/-- Modelled from the spec: `get_required` for string-typed keys fails
with a `ConfigError` when the key is absent. -/
def get_required_str (l : IniLoader) (sec key : String) : Except Error String :=
  match l.get sec key with
  | some v => .ok v
  | none => .error (.ConfigError ("required config: " ++ sec ++ "." ++ key ++ " is missing"))

/-- Modelled from the spec: `get_required` for numeric keys. -/
def get_required_nat (l : IniLoader) (sec key : String) : Except Error Nat :=
  match (l.get sec key).bind parse_nat? with
  | some v => .ok v
  | none => .error (.ConfigError ("required config: " ++ sec ++ "." ++ key ++ " is missing"))

end IniLoader

/-- S3 connection settings (`s3_config.rs`, fields as read in
`task_config.rs`). -/
structure S3Config where
  bucket : String
  access_key : String
  secret_key : String
  region : String
  endpoint : String
  root_dir : String
  root_url : String
  deriving DecidableEq, Repr

/-- Embedding of `BasicExtractorConfig` (`extractor_config.rs`, fields as constructed
in `task_config.rs`). -/
structure BasicExtractorConfig where
  db_type : DbType
  extract_type : ExtractType
  url : String
  deriving DecidableEq, Repr

/-- Embedding of `ExtractorConfig` variants, with exactly the fields filled in by
`TaskConfig::load_extractor_config`. -/
inductive ExtractorConfig where
  | MysqlSnapshot (url db tb : String) (sample_interval : Nat)
  | MysqlCdc (url binlog_filename : String) (binlog_position : Nat)
      (server_id : Nat) (gtid_enabled : Bool) (gtid_set : String)
      (heartbeat_interval_secs : Nat) (heartbeat_tb : String)
      (start_time_utc end_time_utc : String)
  | MysqlCheck (url check_log_dir : String) (batch_size : Nat)
  | MysqlStruct (url db : String)
  | FoxlakeS3 (url schema tb : String) (s3_config : S3Config)
  | PgSnapshot (url schema tb : String) (sample_interval : Nat)
  | PgCdc (url slot_name pub_name start_lsn : String)
      (keepalive_interval_secs heartbeat_interval_secs : Nat)
      (heartbeat_tb ddl_command_tb : String)
      (start_time_utc end_time_utc : String)
  | PgCheck (url check_log_dir : String) (batch_size : Nat)
  | PgStruct (url schema : String)
  | MongoSnapshot (url app_name db tb : String)
  | MongoCdc (url app_name resume_token start_timestamp source : String)
      (heartbeat_interval_secs : Nat) (heartbeat_tb : String)
  | MongoCheck (url app_name check_log_dir : String) (batch_size : Nat)
  | RedisSnapshot (url : String) (repl_port : Nat)
  | RedisSnapshotFile (file_path : String)
  | RedisScan (url statistic_type : String) (scan_count : Nat)
  | RedisCdc (url : String) (repl_port : Nat) (repl_id : String)
      (repl_offset : Nat) (keepalive_interval_secs heartbeat_interval_secs : Nat)
      (heartbeat_key : String) (now_db_id : Nat)
  | RedisReshard (url to_node_ids : String)
  | Kafka (url group topic : String) (partition : Nat) (offset : Nat)
      (ack_interval_secs : Nat)
  deriving DecidableEq, Repr

namespace TaskConfig

/-- Section and key constants from `task_config.rs`. -/
def EXTRACTOR : String := "extractor"
def SINKER : String := "sinker"
def PIPELINE : String := "pipeline"
def PARALLELIZER : String := "parallelizer"
def RUNTIME : String := "runtime"
def FILTER : String := "filter"
def ROUTER : String := "router"
def RESUMER : String := "resumer"
def DATA_MARKER : String := "data_marker"
def PROCESSOR : String := "processor"
def CHECK_LOG_DIR : String := "check_log_dir"
def DB_TYPE : String := "db_type"
def URL : String := "url"
def BATCH_SIZE : String := "batch_size"
def SAMPLE_INTERVAL : String := "sample_interval"
def HEARTBEAT_INTERVAL_SECS : String := "heartbeat_interval_secs"
def KEEPALIVE_INTERVAL_SECS : String := "keepalive_interval_secs"
def HEARTBEAT_TB : String := "heartbeat_tb"
def APP_NAME : String := "app_name"
def REVERSE : String := "reverse"
def REPL_PORT : String := "repl_port"
def APE_DTS : String := "APE_DTS"
def ASTRISK : String := "*"

/-- Embedding of `TaskConfig::load_extractor_config`: reads db type and extract type,
then builds the `ExtractorConfig` variant for the pair, failing with a
`ConfigError` for unsupported combinations. -/
def load_extractor_config (loader : IniLoader) :
    Except Error (BasicExtractorConfig × ExtractorConfig) := do
  let db_type_str ← loader.get_required_str EXTRACTOR DB_TYPE
  let extract_type_str ← loader.get_required_str EXTRACTOR "extract_type"
  let db_type ← DbType.from_str db_type_str
  let extract_type ← ExtractType.from_str extract_type_str

  let url := loader.get_optional_str EXTRACTOR URL
  let heartbeat_interval_secs := loader.get_with_default_nat EXTRACTOR HEARTBEAT_INTERVAL_SECS 10
  let keepalive_interval_secs := loader.get_with_default_nat EXTRACTOR KEEPALIVE_INTERVAL_SECS 10
  let heartbeat_tb := loader.get_optional_str EXTRACTOR HEARTBEAT_TB

  let basic : BasicExtractorConfig :=
    { db_type := db_type, extract_type := extract_type, url := url }

  let not_supported_err : Error :=
    .ConfigError ("extract type: " ++ extract_type.toStr ++ " not supported")

  let sinker ← (match db_type with
    | .Mysql =>
      match extract_type with
      | .Snapshot => .ok (ExtractorConfig.MysqlSnapshot url "" ""
          (loader.get_with_default_nat EXTRACTOR SAMPLE_INTERVAL 1))
      | .Cdc => do
        let server_id ← loader.get_required_nat EXTRACTOR "server_id"
        .ok (ExtractorConfig.MysqlCdc url
          (loader.get_optional_str EXTRACTOR "binlog_filename")
          (loader.get_optional_nat EXTRACTOR "binlog_position")
          server_id
          (loader.get_optional_bool EXTRACTOR "gtid_enabled")
          (loader.get_optional_str EXTRACTOR "gtid_set")
          heartbeat_interval_secs heartbeat_tb
          (loader.get_optional_str EXTRACTOR "start_time_utc")
          (loader.get_optional_str EXTRACTOR "end_time_utc"))
      | .CheckLog => do
        let dir ← loader.get_required_str EXTRACTOR CHECK_LOG_DIR
        .ok (ExtractorConfig.MysqlCheck url dir
          (loader.get_with_default_nat EXTRACTOR BATCH_SIZE 200))
      | .Struct => .ok (ExtractorConfig.MysqlStruct url "")
      | .FoxlakeS3 =>
        let s3_config : S3Config :=
          { bucket := loader.get_optional_str EXTRACTOR "s3_bucket"
            access_key := loader.get_optional_str EXTRACTOR "s3_access_key"
            secret_key := loader.get_optional_str EXTRACTOR "s3_secret_key"
            region := loader.get_optional_str EXTRACTOR "s3_region"
            endpoint := loader.get_optional_str EXTRACTOR "s3_endpoint"
            root_dir := loader.get_optional_str EXTRACTOR "s3_root_dir"
            root_url := loader.get_optional_str EXTRACTOR "s3_root_url" }
        .ok (ExtractorConfig.FoxlakeS3 url "" "" s3_config)
      | _ => .error not_supported_err
    | .Pg =>
      match extract_type with
      | .Snapshot => .ok (ExtractorConfig.PgSnapshot url "" ""
          (loader.get_with_default_nat EXTRACTOR SAMPLE_INTERVAL 1))
      | .Cdc => do
        let slot_name ← loader.get_required_str EXTRACTOR "slot_name"
        .ok (ExtractorConfig.PgCdc url slot_name
          (loader.get_optional_str EXTRACTOR "pub_name")
          (loader.get_optional_str EXTRACTOR "start_lsn")
          keepalive_interval_secs heartbeat_interval_secs heartbeat_tb
          (loader.get_optional_str EXTRACTOR "ddl_command_tb")
          (loader.get_optional_str EXTRACTOR "start_time_utc")
          (loader.get_optional_str EXTRACTOR "end_time_utc"))
      | .CheckLog => do
        let dir ← loader.get_required_str EXTRACTOR CHECK_LOG_DIR
        .ok (ExtractorConfig.PgCheck url dir
          (loader.get_with_default_nat EXTRACTOR BATCH_SIZE 200))
      | .Struct => .ok (ExtractorConfig.PgStruct url "")
      | _ => .error not_supported_err
    | .Mongo =>
      let app_name := loader.get_with_default_str EXTRACTOR APP_NAME APE_DTS
      match extract_type with
      | .Snapshot => .ok (ExtractorConfig.MongoSnapshot url app_name "" "")
      | .Cdc => .ok (ExtractorConfig.MongoCdc url app_name
          (loader.get_optional_str EXTRACTOR "resume_token")
          (loader.get_optional_str EXTRACTOR "start_timestamp")
          (loader.get_optional_str EXTRACTOR "source")
          heartbeat_interval_secs heartbeat_tb)
      | .CheckLog => do
        let dir ← loader.get_required_str EXTRACTOR CHECK_LOG_DIR
        .ok (ExtractorConfig.MongoCheck url app_name dir
          (loader.get_with_default_nat EXTRACTOR BATCH_SIZE 200))
      | _ => .error not_supported_err
    | .Redis =>
      match extract_type with
      | .Snapshot =>
        let repl_port := loader.get_with_default_nat EXTRACTOR REPL_PORT 10008
        .ok (ExtractorConfig.RedisSnapshot url repl_port)
      | .SnapshotFile => do
        let file_path ← loader.get_required_str EXTRACTOR "file_path"
        .ok (ExtractorConfig.RedisSnapshotFile file_path)
      | .Scan => do
        let statistic_type ← loader.get_required_str EXTRACTOR "statistic_type"
        .ok (ExtractorConfig.RedisScan url statistic_type
          (loader.get_with_default_nat EXTRACTOR "scan_count" 1000))
      | .Cdc =>
        let repl_port := loader.get_with_default_nat EXTRACTOR REPL_PORT 10008
        .ok (ExtractorConfig.RedisCdc url repl_port
          (loader.get_optional_str EXTRACTOR "repl_id")
          (loader.get_optional_nat EXTRACTOR "repl_offset")
          keepalive_interval_secs heartbeat_interval_secs
          (loader.get_optional_str EXTRACTOR "heartbeat_key")
          (loader.get_optional_nat EXTRACTOR "now_db_id"))
      | .Reshard => do
        let to_node_ids ← loader.get_required_str EXTRACTOR "to_node_ids"
        .ok (ExtractorConfig.RedisReshard url to_node_ids)
      | _ => .error not_supported_err
    | .Kafka => do
      let group ← loader.get_required_str EXTRACTOR "group"
      let topic ← loader.get_required_str EXTRACTOR "topic"
      .ok (ExtractorConfig.Kafka url group topic
        (loader.get_optional_nat EXTRACTOR "partition")
        (loader.get_optional_nat EXTRACTOR "offset")
        (loader.get_optional_nat EXTRACTOR "ack_interval_secs"))
    | db_type =>
      .error (.ConfigError ("extractor db type: " ++ db_type.toStr ++ " not supported")))
  .ok (basic, sinker)

end TaskConfig

/-- Embedding of `BasicSinkerConfig` (`sinker_config.rs`, fields as constructed in
`task_config.rs`). -/
structure BasicSinkerConfig where
  db_type : DbType
  url : String
  batch_size : Nat
  deriving DecidableEq, Repr

/-- Embedding of `SinkerConfig` variants, with exactly the fields filled in by
`TaskConfig::load_sinker_config`. -/
inductive SinkerConfig where
  | Mysql (url : String) (batch_size : Nat)
  | MysqlCheck (url : String) (batch_size : Nat) (check_log_dir : String)
  | MysqlStruct (url : String) (conflict_policy : ConflictPolicyEnum)
  | Sql (reverse : Bool)
  | Pg (url : String) (batch_size : Nat)
  | PgCheck (url : String) (batch_size : Nat) (check_log_dir : String)
  | PgStruct (url : String) (conflict_policy : ConflictPolicyEnum)
  | Mongo (url app_name : String) (batch_size : Nat)
  | MongoCheck (url app_name : String) (batch_size : Nat) (check_log_dir : String)
  | Kafka (url : String) (batch_size : Nat) (ack_timeout_secs : Nat)
      (required_acks : String)
  | Redis (url : String) (batch_size : Nat) (method : String) (is_cluster : Bool)
  | RedisStatistic (statistic_type : String) (data_size_threshold : Nat)
      (freq_threshold : Nat) (statistic_log_dir : String)
  | Dummy
  | Starrocks (url : String) (batch_size : Nat) (stream_load_url : String)
  | Foxlake (url : String) (batch_size : Nat) (batch_memory_mb : Nat)
      (s3_config : S3Config) (engine : String)
  | FoxlakeStruct (url : String) (conflict_policy : ConflictPolicyEnum)
      (engine : String)
  | FoxlakePush (url : String) (batch_size : Nat) (batch_memory_mb : Nat)
      (s3_config : S3Config)
  | FoxlakeMerge (url : String) (batch_size : Nat) (s3_config : S3Config)
  deriving DecidableEq, Repr

/-- Embedding of `ParallelizerConfig` (`parallelizer_config.rs`, fields as constructed
in `task_config.rs`). -/
structure ParallelizerConfig where
  parallel_size : Nat
  parallel_type : ParallelType
  deriving DecidableEq, Repr

/-- Embedding of `PipelineConfig` (`pipeline_config.rs`, fields as constructed in
`task_config.rs`). -/
structure PipelineConfig where
  buffer_size : Nat
  checkpoint_interval_secs : Nat
  batch_sink_interval_secs : Nat
  counter_time_window_secs : Nat
  counter_max_sub_count : Nat
  max_rps : Nat
  buffer_memory_mb : Nat
  deriving DecidableEq, Repr

/-- Embedding of `RuntimeConfig` (fields as constructed in `task_config.rs`). -/
structure RuntimeConfig where
  log_level : String
  log_dir : String
  log4rs_file : String
  deriving DecidableEq, Repr

/-- Embedding of `FilterConfig` (fields as constructed in `task_config.rs`). -/
structure FilterConfig where
  do_schemas : String
  ignore_schemas : String
  do_tbs : String
  ignore_tbs : String
  do_events : String
  do_ddls : String
  do_structures : String
  ignore_cmds : String
  deriving DecidableEq, Repr

/-- Embedding of `RouterConfig::Rdb` (fields as constructed in `task_config.rs`). -/
structure RouterConfig where
  schema_map : String
  tb_map : String
  col_map : String
  topic_map : String
  deriving DecidableEq, Repr

/-- Embedding of `ResumerConfig` (fields as constructed in `task_config.rs`). -/
structure ResumerConfig where
  resume_config_file : String
  resume_from_log : Bool
  resume_log_dir : String
  deriving DecidableEq, Repr

/-- Embedding of `DataMarkerConfig` (fields as constructed in `task_config.rs`). -/
structure DataMarkerConfig where
  topo_name : String
  topo_nodes : String
  src_node : String
  dst_node : String
  do_nodes : String
  ignore_nodes : String
  marker : String
  deriving DecidableEq, Repr

/-- Embedding of `ProcessorConfig` (fields as constructed in `task_config.rs`). -/
structure ProcessorConfig where
  lua_code_file : String
  lua_code : String
  deriving DecidableEq, Repr

/-- Embedding of `TaskConfig` — the full loaded task configuration. -/
structure TaskConfig where
  extractor_basic : BasicExtractorConfig
  extractor : ExtractorConfig
  sinker_basic : BasicSinkerConfig
  sinker : SinkerConfig
  runtime : RuntimeConfig
  parallelizer : ParallelizerConfig
  pipeline : PipelineConfig
  filter : FilterConfig
  router : RouterConfig
  resumer : ResumerConfig
  data_marker : Option DataMarkerConfig
  processor : Option ProcessorConfig
  deriving DecidableEq, Repr

namespace TaskConfig

/-- Embedding of `TaskConfig::load_sinker_config`. -/
def load_sinker_config (loader : IniLoader) :
    Except Error (BasicSinkerConfig × SinkerConfig) := do
  let db_type_str ← loader.get_required_str SINKER DB_TYPE
  let sink_type_str := loader.get_with_default_str SINKER "sink_type" "write"
  let db_type ← DbType.from_str db_type_str
  let sink_type ← SinkType.from_str sink_type_str

  let url := loader.get_optional_str SINKER URL
  let batch_size := loader.get_with_default_nat SINKER BATCH_SIZE 200

  let basic : BasicSinkerConfig :=
    { db_type := db_type, url := url, batch_size := batch_size }

  let conflict_policy_str := loader.get_optional_str SINKER "conflict_policy"
  let conflict_policy := ConflictPolicyEnum.from_str conflict_policy_str

  let not_supported_err : Error :=
    .ConfigError ("sinker db type: " ++ db_type.toStr ++ " not supported")

  let sinker ← (match db_type with
    | .Mysql =>
      match sink_type with
      | .Write => .ok (SinkerConfig.Mysql url batch_size)
      | .Check => .ok (SinkerConfig.MysqlCheck url batch_size
          (loader.get_optional_str SINKER CHECK_LOG_DIR))
      | .Struct => .ok (SinkerConfig.MysqlStruct url conflict_policy)
      | .Sql => .ok (SinkerConfig.Sql (loader.get_optional_bool SINKER REVERSE))
      | _ => .error not_supported_err
    | .Pg =>
      match sink_type with
      | .Write => .ok (SinkerConfig.Pg url batch_size)
      | .Check => .ok (SinkerConfig.PgCheck url batch_size
          (loader.get_optional_str SINKER CHECK_LOG_DIR))
      | .Struct => .ok (SinkerConfig.PgStruct url conflict_policy)
      | .Sql => .ok (SinkerConfig.Sql (loader.get_optional_bool SINKER REVERSE))
      | _ => .error not_supported_err
    | .Mongo =>
      let app_name := loader.get_with_default_str SINKER APP_NAME APE_DTS
      match sink_type with
      | .Write => .ok (SinkerConfig.Mongo url app_name batch_size)
      | .Check => .ok (SinkerConfig.MongoCheck url app_name batch_size
          (loader.get_optional_str SINKER CHECK_LOG_DIR))
      | _ => .error not_supported_err
    | .Kafka => do
      let ack_timeout_secs ← loader.get_required_nat SINKER "ack_timeout_secs"
      let required_acks ← loader.get_required_str SINKER "required_acks"
      .ok (SinkerConfig.Kafka url batch_size ack_timeout_secs required_acks)
    | .Redis =>
      match sink_type with
      | .Write => .ok (SinkerConfig.Redis url batch_size
          (loader.get_optional_str SINKER "method")
          (loader.get_optional_bool SINKER "is_cluster"))
      | .Statistic => do
        let statistic_type ← loader.get_required_str SINKER "statistic_type"
        .ok (SinkerConfig.RedisStatistic statistic_type
          (loader.get_optional_nat SINKER "data_size_threshold")
          (loader.get_optional_nat SINKER "freq_threshold")
          (loader.get_optional_str SINKER "statistic_log_dir"))
      | .Dummy => .ok SinkerConfig.Dummy
      | _ => .error not_supported_err
    | .StarRocks => .ok (SinkerConfig.Starrocks url batch_size
        (loader.get_optional_str SINKER "stream_load_url"))
    | .Foxlake =>
      let s3_config : S3Config :=
        { bucket := loader.get_optional_str SINKER "s3_bucket"
          access_key := loader.get_optional_str SINKER "s3_access_key"
          secret_key := loader.get_optional_str SINKER "s3_secret_key"
          region := loader.get_optional_str SINKER "s3_region"
          endpoint := loader.get_optional_str SINKER "s3_endpoint"
          root_dir := loader.get_optional_str SINKER "s3_root_dir"
          root_url := loader.get_optional_str SINKER "s3_root_url" }
      match sink_type with
      | .Write => .ok (SinkerConfig.Foxlake url batch_size
          (loader.get_optional_nat SINKER "batch_memory_mb") s3_config
          (loader.get_optional_str SINKER "engine"))
      | .Struct => .ok (SinkerConfig.FoxlakeStruct url conflict_policy
          (loader.get_optional_str SINKER "engine"))
      | .Push => .ok (SinkerConfig.FoxlakePush url batch_size
          (loader.get_optional_nat SINKER "batch_memory_mb") s3_config)
      | .Merge => .ok (SinkerConfig.FoxlakeMerge url batch_size s3_config)
      | _ => .error not_supported_err)
  .ok (basic, sinker)

/-- Embedding of `TaskConfig::load_parallelizer_config`. -/
def load_parallelizer_config (loader : IniLoader) : Except Error ParallelizerConfig := do
  let parallel_type_str := loader.get_with_default_str PARALLELIZER "parallel_type" "serial"
  let parallel_type ← ParallelType.from_str parallel_type_str
  .ok { parallel_size := loader.get_with_default_nat PARALLELIZER "parallel_size" 1
        parallel_type := parallel_type }

/-- Embedding of `TaskConfig::load_pipeline_config`: total (never fails); patches a
zero counter time window to the checkpoint interval. -/
def load_pipeline_config (loader : IniLoader) : PipelineConfig :=
  let config : PipelineConfig :=
    { buffer_size := loader.get_with_default_nat PIPELINE "buffer_size" 16000
      checkpoint_interval_secs :=
        loader.get_with_default_nat PIPELINE "checkpoint_interval_secs" 10
      batch_sink_interval_secs := loader.get_optional_nat PIPELINE "batch_sink_interval_secs"
      counter_time_window_secs := loader.get_optional_nat PIPELINE "counter_time_window_secs"
      counter_max_sub_count := loader.get_with_default_nat PIPELINE "counter_max_sub_count" 1000
      max_rps := loader.get_optional_nat PIPELINE "max_rps"
      buffer_memory_mb := loader.get_optional_nat PIPELINE "buffer_memory_mb" }
  if config.counter_time_window_secs = 0 then
    { config with counter_time_window_secs := config.checkpoint_interval_secs }
  else config

/-- Embedding of `TaskConfig::load_runtime_config`. -/
def load_runtime_config (loader : IniLoader) : Except Error RuntimeConfig :=
  .ok { log_level := loader.get_with_default_str RUNTIME "log_level" "info"
        log_dir := loader.get_with_default_str RUNTIME "log_dir" "./logs"
        log4rs_file := loader.get_with_default_str RUNTIME "log4rs_file" "./log4rs.yaml" }

/-- Embedding of `TaskConfig::load_filter_config`. -/
def load_filter_config (loader : IniLoader) : Except Error FilterConfig :=
  .ok { do_schemas := loader.get_optional_str FILTER "do_dbs"
        ignore_schemas := loader.get_optional_str FILTER "ignore_dbs"
        do_tbs := loader.get_optional_str FILTER "do_tbs"
        ignore_tbs := loader.get_optional_str FILTER "ignore_tbs"
        do_events := loader.get_optional_str FILTER "do_events"
        do_ddls := loader.get_optional_str FILTER "do_ddls"
        do_structures := loader.get_with_default_str FILTER "do_structures" ASTRISK
        ignore_cmds := loader.get_optional_str FILTER "ignore_cmds" }

/-- Embedding of `TaskConfig::load_router_config`. -/
def load_router_config (loader : IniLoader) : Except Error RouterConfig :=
  .ok { schema_map := loader.get_optional_str ROUTER "db_map"
        tb_map := loader.get_optional_str ROUTER "tb_map"
        col_map := loader.get_optional_str ROUTER "col_map"
        topic_map := loader.get_optional_str ROUTER "topic_map" }

/-- Embedding of `TaskConfig::load_resumer_config`. -/
def load_resumer_config (loader : IniLoader) : Except Error ResumerConfig :=
  let dir0 := loader.get_optional_str RESUMER "resume_log_dir"
  let resume_log_dir :=
    if dir0 = "" then loader.get_with_default_str RUNTIME "log_dir" "./logs" else dir0
  .ok { resume_config_file := loader.get_optional_str RESUMER "resume_config_file"
        resume_from_log := loader.get_optional_bool RESUMER "resume_from_log"
        resume_log_dir := resume_log_dir }

/-- Embedding of `TaskConfig::load_data_marker_config`. -/
def load_data_marker_config (loader : IniLoader) :
    Except Error (Option DataMarkerConfig) := do
  if DATA_MARKER ∉ loader.sections then
    return none
  let topo_name ← loader.get_required_str DATA_MARKER "topo_name"
  let src_node ← loader.get_required_str DATA_MARKER "src_node"
  let dst_node ← loader.get_required_str DATA_MARKER "dst_node"
  let do_nodes ← loader.get_required_str DATA_MARKER "do_nodes"
  let marker ← loader.get_required_str DATA_MARKER "marker"
  .ok (some { topo_name := topo_name
              topo_nodes := loader.get_optional_str DATA_MARKER "topo_nodes"
              src_node := src_node
              dst_node := dst_node
              do_nodes := do_nodes
              ignore_nodes := loader.get_optional_str DATA_MARKER "ignore_nodes"
              marker := marker })

/-- Embedding of `TaskConfig::load_processor_config`; the filesystem the Lua code file
is read from is passed explicitly as a map from path to contents. -/
def load_processor_config (loader : IniLoader) (fs : String → Option String) :
    Except Error (Option ProcessorConfig) := do
  if PROCESSOR ∉ loader.sections then
    return none
  let lua_code_file := loader.get_optional_str PROCESSOR "lua_code_file"
  let lua_code := (fs lua_code_file).getD ""
  .ok (some { lua_code_file := lua_code_file, lua_code := lua_code })

/-- Embedding of `TaskConfig::new`: loads every section, propagating the first error;
on any error no `TaskConfig` value is constructed. -/
def new (loader : IniLoader) (fs : String → Option String) :
    Except Error TaskConfig := do
  let (extractor_basic, extractor) ← load_extractor_config loader
  let (sinker_basic, sinker) ← load_sinker_config loader
  let parallelizer ← load_parallelizer_config loader
  let pipeline := load_pipeline_config loader
  let runtime ← load_runtime_config loader
  let filter ← load_filter_config loader
  let router ← load_router_config loader
  let resumer ← load_resumer_config loader
  let data_marker ← load_data_marker_config loader
  let processor ← load_processor_config loader fs
  .ok { extractor_basic := extractor_basic
        extractor := extractor
        parallelizer := parallelizer
        pipeline := pipeline
        sinker_basic := sinker_basic
        sinker := sinker
        runtime := runtime
        filter := filter
        router := router
        resumer := resumer
        data_marker := data_marker
        processor := processor }

end TaskConfig

/-! ## Postgres structure statements
(`dt-common/src/meta/struct_meta/statement/pg_create_table_statement.rs`) -/

/-- Structure types distinguished by the structural filter
(`structure_type.rs`; the variants used by the Pg statement code). -/
inductive StructureType where
  | Table | Constraint | Index | Sequence | Comment
  deriving DecidableEq, Repr

/-- Column metadata (`structure/column.rs`, fields used in
`columns_to_sql`). -/
structure Column where
  column_name : String
  ordinal_position : Nat
  column_type : String
  is_nullable : String
  column_default : Option String
  generated : Option String
  deriving DecidableEq, Repr

/-- Table metadata (`structure/table.rs`, fields used in `table_to_sql`). -/
structure Table where
  schema_name : String
  table_name : String
  columns : List Column
  deriving DecidableEq, Repr

/-- Comment metadata (`structure/comment.rs`). -/
structure Comment where
  schema_name : String
  table_name : String
  column_name : String
  comment : String
  deriving DecidableEq, Repr

/-- Constraint kinds (`structure/constraint.rs`; `Primary` and `Unique`
are matched specially, all other kinds take the default branch). -/
inductive ConstraintType where
  | Primary | Unique | Foreign | Check | Unknown
  deriving DecidableEq, Repr

/-- Constraint metadata (`structure/constraint.rs`). -/
structure Constraint where
  schema_name : String
  table_name : String
  constraint_name : String
  constraint_type : ConstraintType
  definition : String
  deriving DecidableEq, Repr

/-- Index kinds (`structure/index.rs`; `Unique` is matched specially). -/
inductive IndexKind where
  | Unique | Unknown
  deriving DecidableEq, Repr

/-- Index metadata (`structure/index.rs`). -/
structure Index where
  schema_name : String
  table_name : String
  index_name : String
  index_kind : IndexKind
  definition : String
  table_space : String
  deriving DecidableEq, Repr

/-- Sequence metadata (`structure/sequence.rs`). -/
structure Sequence where
  schema_name : String
  sequence_name : String
  data_type : String
  start_value : String
  increment : String
  minimum_value : String
  maximum_value : String
  cycle_option : String
  deriving DecidableEq, Repr

/-- Sequence-owner metadata (`structure/sequence_owner.rs`). -/
structure SequenceOwner where
  schema_name : String
  table_name : String
  sequence_name : String
  column_name : String
  deriving DecidableEq, Repr

/-- Embedding of `PgCreateTableStatement`. -/
structure PgCreateTableStatement where
  table : Table
  table_comments : List Comment
  column_comments : List Comment
  constraints : List Constraint
  indexes : List Index
  sequences : List Sequence
  sequence_owners : List SequenceOwner
  deriving DecidableEq, Repr

namespace PgCreateTableStatement

/-- Comparison used by `columns_to_sql`'s in-place sort:
`a.ordinal_position.cmp(&b.ordinal_position)` ascending. -/
def colLe (a b : Column) : Prop :=
  a.ordinal_position ≤ b.ordinal_position

instance : DecidableRel colLe := fun a b =>
  Nat.decLe a.ordinal_position b.ordinal_position

instance : IsTotal Column colLe :=
  ⟨fun a b => Nat.le_total a.ordinal_position b.ordinal_position⟩

instance : IsTrans Column colLe :=
  ⟨fun _ _ _ h1 h2 => Nat.le_trans h1 h2⟩

/-- One column's fragment of the CREATE TABLE column list, including the
trailing comma appended by the loop body of `columns_to_sql`. -/
def column_fragment (column : Column) : String :=
  let sql := "\"" ++ column.column_name ++ "\" " ++ column.column_type ++ " "
  let sql := if str_to_lower column.is_nullable = "no" then sql ++ "NOT NULL " else sql
  let sql := match column.column_default with
    | some x => sql ++ "DEFAULT " ++ x ++ " "
    | none => sql
  let sql := match column.generated with
    | some x =>
      if x = "ALWAYS" then sql ++ "GENERATED ALWAYS AS IDENTITY "
      else sql ++ "GENERATED BY DEFAULT AS IDENTITY "
    | none => sql
  sql ++ ","

/-- Embedding of `PgCreateTableStatement::columns_to_sql`: sorts the columns by
`ordinal_position`, renders each, then strips the trailing comma. -/
def columns_to_sql (columns : List Column) : String :=
  let sorted := List.insertionSort colLe columns
  let sql := sorted.foldl (fun acc column => acc ++ column_fragment column) ""
  if ends_with_char sql ',' then drop_last_char sql else sql

/-- Embedding of `PgCreateTableStatement::table_to_sql`. -/
def table_to_sql (table : Table) : String :=
  "CREATE TABLE IF NOT EXISTS \"" ++ table.schema_name ++ "\".\"" ++
    table.table_name ++ "\" (" ++ columns_to_sql table.columns ++ ")"

/-- Embedding of `PgCreateTableStatement::index_to_sql`. -/
def index_to_sql (index : Index) : String :=
  (replace_all (replace_all index.definition "CREATE INDEX" "CREATE INDEX IF NOT EXISTS")
      "CREATE UNIQUE INDEX" "CREATE UNIQUE INDEX IF NOT EXISTS") ++
    " TABLESPACE " ++ index.table_space

/-- Embedding of `PgCreateTableStatement::comment_to_sql`. -/
def comment_to_sql (comment : Comment) : String :=
  if comment.column_name = "" then
    "COMMENT ON TABLE \"" ++ comment.schema_name ++ "\".\"" ++
      comment.table_name ++ "\" is " ++ "'" ++ comment.comment ++ "'"
  else
    "COMMENT ON COLUMN \"" ++ comment.schema_name ++ "\".\"" ++
      comment.table_name ++ "\".\"" ++ comment.column_name ++ "\" IS " ++
      "'" ++ comment.comment ++ "'"

/-- Embedding of `PgCreateTableStatement::sequence_to_sql`. -/
def sequence_to_sql (sequence : Sequence) : String :=
  let cycle_str := if str_to_lower sequence.cycle_option = "yes" then "CYCLE" else "NO CYCLE"
  "CREATE SEQUENCE IF NOT EXISTS \"" ++ sequence.schema_name ++ "\".\"" ++
    sequence.sequence_name ++ "\" AS " ++ sequence.data_type ++ " START " ++
    sequence.start_value ++ " INCREMENT by " ++ sequence.increment ++
    " MINVALUE " ++ sequence.minimum_value ++ " MAXVALUE " ++
    sequence.maximum_value ++ " " ++ cycle_str

/-- Embedding of `PgCreateTableStatement::sequence_owner_to_sql`. -/
def sequence_owner_to_sql (s : SequenceOwner) : String :=
  "ALTER SEQUENCE \"" ++ s.schema_name ++ "\".\"" ++ s.sequence_name ++
    "\" OWNED BY \"" ++ s.schema_name ++ "\".\"" ++ s.table_name ++ "\".\"" ++
    s.column_name ++ "\""

/-- Embedding of `PgCreateTableStatement::constraint_to_sql`. -/
def constraint_to_sql (c : Constraint) : String :=
  "ALTER TABLE \"" ++ c.schema_name ++ "\".\"" ++ c.table_name ++
    "\" ADD CONSTRAINT \"" ++ c.constraint_name ++ "\" " ++ c.definition

/-- Embedding of `PgCreateTableStatement::to_sqls`. `RdbFilter::filter_structure` (the
filter implementation lives outside the given sources) is abstracted as
the Boolean predicate it provides: `filter_structure t = true` means the
structure type `t` is filtered OUT. -/
def to_sqls (stmt : PgCreateTableStatement) (filter_structure : StructureType → Bool) :
    List (String × String) :=
  let sqls : List (String × String) :=
    if !filter_structure StructureType.Table then
      (stmt.sequences.map fun i =>
        ("sequence." ++ i.schema_name ++ "." ++ i.sequence_name, sequence_to_sql i)) ++
      [("table." ++ stmt.table.schema_name ++ "." ++ stmt.table.table_name,
        table_to_sql stmt.table)] ++
      (stmt.sequence_owners.map fun i =>
        ("sequence_owner." ++ i.schema_name ++ "." ++ i.table_name ++ "." ++ i.sequence_name,
         sequence_owner_to_sql i)) ++
      (stmt.column_comments.map fun i =>
        ("column_comment." ++ i.schema_name ++ "." ++ i.table_name ++ "." ++ i.column_name,
         comment_to_sql i)) ++
      (stmt.table_comments.map fun i =>
        ("table_comment." ++ i.schema_name ++ "." ++ i.table_name, comment_to_sql i))
    else []
  let sqls := sqls ++ (stmt.constraints.filterMap fun i =>
    let skip := match i.constraint_type with
      | .Primary | .Unique => filter_structure StructureType.Table
      | _ => filter_structure StructureType.Constraint
    if skip then none
    else some ("constraint." ++ i.schema_name ++ "." ++ i.table_name ++ "." ++ i.constraint_name,
      constraint_to_sql i))
  let sqls := sqls ++ (stmt.indexes.filterMap fun i =>
    let skip := match i.index_kind with
      | .Unique => filter_structure StructureType.Table
      | _ => filter_structure StructureType.Index
    if skip then none
    else some ("index." ++ i.schema_name ++ "." ++ i.table_name ++ "." ++ i.index_name,
      index_to_sql i))
  sqls

end PgCreateTableStatement

/-! ## Transaction filter
(`dt-pipeline/src/filters/traits.rs` declares the contract; the filter
implementation and `rdb_filter.rs` live outside the given sources and are
modelled from the spec.) -/

/-- Row-mutation kinds, from the spec's event model. -/
inductive RowType where
  | Insert | Update | Delete
  deriving DecidableEq, Repr

/-- Modelled from the spec: a `Row` is an ordered mapping of column name
to value (values kept as raw strings at this layer). -/
def Row : Type := List (String × String)

instance : DecidableEq Row := by
  unfold Row
  infer_instance

/-- Embedding of `RowData` as used by the transaction-filter contract: a row mutation
with optional before/after images. -/
structure RowData where
  schema : String
  tb : String
  row_type : RowType
  before : Option Row
  after : Option Row
  deriving DecidableEq

/-- Embedding of `DtData` — the change-event union consumed by `filter_dmls`
(modelled from the spec's `ChangeEvent`). -/
inductive DtData where
  | Dml (row : RowData)
  | Ddl (schema tb definition : String)
  | Heartbeat
  | Begin
  | Commit
  deriving DecidableEq

/-- Modelled from the spec: the filter's predicate tables, built once at
startup from `FilterConfig` (`rdb_filter.rs` is outside the given
sources): do/ignore lists for schemas and (schema, table) pairs. -/
structure RdbFilter where
  do_schemas : List String
  ignore_schemas : List String
  do_tbs : List (String × String)
  ignore_tbs : List (String × String)
  deriving DecidableEq

/-- Modelled from the spec: `should_keep` evaluates do/ignore lists for
schema and table; ignore-list presence always wins over do-list presence
(explicit deny beats allow); with no do-lists configured everything not
ignored is kept. -/
def RdbFilter.should_keep (f : RdbFilter) (schema tb : String) : Bool :=
  if (schema, tb) ∈ f.ignore_tbs ∨ schema ∈ f.ignore_schemas then false
  else if f.do_tbs = [] ∧ f.do_schemas = [] then true
  else decide ((schema, tb) ∈ f.do_tbs ∨ schema ∈ f.do_schemas)

/-- An event is malformed when it is an Update row mutation carrying
neither a before nor an after image. -/
def DtData.malformed : DtData → Prop
  | .Dml r => r.row_type = .Update ∧ r.before = none ∧ r.after = none
  | _ => False

instance (d : DtData) : Decidable d.malformed := by
  cases d <;> simp [DtData.malformed] <;> infer_instance

/-- Modelled from the spec: `filter_dmls` keeps the row mutations that
pass the filter (preserving order), drops the rest while recording the
first dropped schema/table, and fails with a `DataError` on a malformed
event (an Update with neither image). Non-DML events contribute no rows. -/
def filter_dmls (f : RdbFilter) :
    List DtData → Except Error (List RowData × Option String × Option String)
  | [] => .ok ([], none, none)
  | d :: rest =>
    match d with
    | .Dml r =>
      if r.row_type = .Update ∧ r.before = none ∧ r.after = none then
        .error (.DataError "Update event missing both before and after images")
      else do
        let (kept, ds, dt) ← filter_dmls f rest
        if f.should_keep r.schema r.tb then
          .ok (r :: kept, ds, dt)
        else
          .ok (kept, some r.schema, some r.tb)
    | _ => filter_dmls f rest

/-- The rows of an event window that the filter keeps, in input order. -/
def kept_rows (f : RdbFilter) (datas : List DtData) : List RowData :=
  datas.filterMap fun d =>
    match d with
    | .Dml r => if f.should_keep r.schema r.tb then some r else none
    | _ => none

/-- The first row mutation of the window that the filter drops, if any. -/
def first_dropped (f : RdbFilter) (datas : List DtData) : Option RowData :=
  datas.findSome? fun d =>
    match d with
    | .Dml r => if f.should_keep r.schema r.tb then none else some r
    | _ => none

/-! ## Helper definitions used by the theorems -/

/-- The db-type/extract-type pairs for which
`TaskConfig::load_extractor_config` builds a configuration (read off its
match arms); all other pairs fall into a `bail!` arm. -/
def extract_supported : DbType → ExtractType → Bool
  | .Mysql, .Snapshot | .Mysql, .Cdc | .Mysql, .CheckLog
  | .Mysql, .Struct | .Mysql, .FoxlakeS3 => true
  | .Pg, .Snapshot | .Pg, .Cdc | .Pg, .CheckLog | .Pg, .Struct => true
  | .Mongo, .Snapshot | .Mongo, .Cdc | .Mongo, .CheckLog => true
  | .Redis, .Snapshot | .Redis, .SnapshotFile | .Redis, .Scan
  | .Redis, .Cdc | .Redis, .Reshard => true
  | .Kafka, _ => true
  | _, _ => false

/-- The heartbeat interval carried by an extractor configuration, when
the variant is one of the CDC variants that have one. -/
def ExtractorConfig.heartbeat_interval? : ExtractorConfig → Option Nat
  | .MysqlCdc _ _ _ _ _ _ h _ _ _ => some h
  | .PgCdc _ _ _ _ _ h _ _ _ _ => some h
  | .MongoCdc _ _ _ _ _ h _ => some h
  | .RedisCdc _ _ _ _ _ h _ _ => some h
  | _ => none

namespace PgCreateTableStatement

/-- The key/sql pair `to_sqls` emits for a sequence. -/
def sequence_entry (i : Sequence) : String × String :=
  ("sequence." ++ i.schema_name ++ "." ++ i.sequence_name, sequence_to_sql i)

/-- The key/sql pair `to_sqls` emits for the table itself. -/
def table_entry (t : Table) : String × String :=
  ("table." ++ t.schema_name ++ "." ++ t.table_name, table_to_sql t)

/-- The key/sql pair `to_sqls` emits for a sequence owner. -/
def sequence_owner_entry (i : SequenceOwner) : String × String :=
  ("sequence_owner." ++ i.schema_name ++ "." ++ i.table_name ++ "." ++ i.sequence_name,
   sequence_owner_to_sql i)

/-- The key/sql pair `to_sqls` emits for a column comment. -/
def column_comment_entry (i : Comment) : String × String :=
  ("column_comment." ++ i.schema_name ++ "." ++ i.table_name ++ "." ++ i.column_name,
   comment_to_sql i)

/-- The key/sql pair `to_sqls` emits for a table comment. -/
def table_comment_entry (i : Comment) : String × String :=
  ("table_comment." ++ i.schema_name ++ "." ++ i.table_name, comment_to_sql i)

/-- The key/sql pair `to_sqls` emits for a constraint. -/
def constraint_entry (i : Constraint) : String × String :=
  ("constraint." ++ i.schema_name ++ "." ++ i.table_name ++ "." ++ i.constraint_name,
   constraint_to_sql i)

/-- The key/sql pair `to_sqls` emits for an index. -/
def index_entry (i : Index) : String × String :=
  ("index." ++ i.schema_name ++ "." ++ i.table_name ++ "." ++ i.index_name,
   index_to_sql i)

/-- Whether a constraint is a primary-key or unique constraint. -/
def pk_or_unique (c : Constraint) : Bool :=
  match c.constraint_type with
  | .Primary | .Unique => true
  | _ => false

/-- Whether `to_sqls` emits a given constraint: primary/unique
constraints follow the Table filter decision, the rest the Constraint
decision. -/
def constraint_kept (fs : StructureType → Bool) (c : Constraint) : Bool :=
  if pk_or_unique c then !fs StructureType.Table else !fs StructureType.Constraint

/-- Whether `to_sqls` emits a given index: unique indexes follow the
Table filter decision, the rest the Index decision. -/
def index_kept (fs : StructureType → Bool) (i : Index) : Bool :=
  if i.index_kind = IndexKind.Unique then !fs StructureType.Table
  else !fs StructureType.Index

/-- The block of statements `to_sqls` emits only when the Table structure
type passes the filter: sequences, the CREATE TABLE itself, sequence
owners, column comments and table comments, in that order. -/
def table_block (stmt : PgCreateTableStatement) : List (String × String) :=
  stmt.sequences.map sequence_entry ++ [table_entry stmt.table] ++
    stmt.sequence_owners.map sequence_owner_entry ++
    stmt.column_comments.map column_comment_entry ++
    stmt.table_comments.map table_comment_entry

end PgCreateTableStatement

/-- An INI loader holding no sections and no keys. -/
def emptyLoader : IniLoader :=
  { sections := [], get := fun _ _ => none }

/-- A sample filter that keeps only schema `db1`. -/
def sampleFilter : RdbFilter :=
  { do_schemas := ["db1"], ignore_schemas := [], do_tbs := [], ignore_tbs := [] }

/-- A sample insert against a schema/table unknown to `sampleFilter`. -/
def sampleUnknownRow : RowData :=
  { schema := "unknown_db", tb := "unknown_tb", row_type := RowType.Insert,
    before := none, after := some [("id", "1")] }

/-- A sample insert that `sampleFilter` keeps. -/
def sampleRow1 : RowData :=
  { schema := "db1", tb := "t1", row_type := RowType.Insert,
    before := none, after := some [("id", "1")] }

/-- A sample insert that `sampleFilter` drops (first dropped). -/
def sampleRow2 : RowData :=
  { schema := "db2", tb := "t2", row_type := RowType.Insert,
    before := none, after := some [("id", "2")] }

/-- A sample delete that `sampleFilter` also drops, from a distinct
schema/table (dropped later than `sampleRow2`). -/
def sampleRow3 : RowData :=
  { schema := "db3", tb := "t3", row_type := RowType.Delete,
    before := some [("id", "3")], after := none }

/-- A sample transaction window dropping rows of two distinct tables. -/
def sampleDatas : List DtData :=
  [DtData.Begin, DtData.Dml sampleRow1, DtData.Dml sampleRow2,
   DtData.Dml sampleRow3, DtData.Commit]

/-- Strict ordering of columns by ordinal position. -/
def colLt (a b : Column) : Prop :=
  a.ordinal_position < b.ordinal_position

instance : IsAntisymm Column colLt :=
  ⟨fun _ _ h1 h2 => absurd (Nat.lt_trans h1 h2) (Nat.lt_irrefl _)⟩

/-- A sample identity column with ordinal position 1. -/
def colA : Column :=
  { column_name := "id", ordinal_position := 1, column_type := "int4",
    is_nullable := "NO", column_default := none, generated := some "ALWAYS" }

/-- A sample nullable text column with ordinal position 2. -/
def colB : Column :=
  { column_name := "name", ordinal_position := 2, column_type := "text",
    is_nullable := "YES", column_default := some "'x'::text", generated := none }

/-- A sample table whose column list is NOT in ordinal order. -/
def sampleTable : Table :=
  { schema_name := "public", table_name := "t1", columns := [colB, colA] }

/-- A sample primary-key constraint. -/
def pkCon : Constraint :=
  { schema_name := "public", table_name := "t1",
    constraint_name := "t1_pkey", constraint_type := ConstraintType.Primary,
    definition := "PRIMARY KEY (id)" }

/-- A sample foreign-key constraint. -/
def fkCon : Constraint :=
  { schema_name := "public", table_name := "t1",
    constraint_name := "t1_fk", constraint_type := ConstraintType.Foreign,
    definition := "FOREIGN KEY (id) REFERENCES t0(id)" }

/-- A sample unique index. -/
def uqIdx : Index :=
  { schema_name := "public", table_name := "t1", index_name := "t1_uq",
    index_kind := IndexKind.Unique,
    definition := "CREATE UNIQUE INDEX t1_uq ON public.t1 (name)",
    table_space := "pg_default" }

/-- A sample non-unique index. -/
def plainIdx : Index :=
  { schema_name := "public", table_name := "t1", index_name := "t1_idx",
    index_kind := IndexKind.Unknown,
    definition := "CREATE INDEX t1_idx ON public.t1 (name)",
    table_space := "pg_default" }

/-- A sample sequence. -/
def seq1 : Sequence :=
  { schema_name := "public", sequence_name := "t1_id_seq",
    data_type := "bigint", start_value := "1", increment := "1", minimum_value := "1",
    maximum_value := "9223372036854775807", cycle_option := "NO" }

/-- A sample sequence owner. -/
def seqOwner1 : SequenceOwner :=
  { schema_name := "public", table_name := "t1",
    sequence_name := "t1_id_seq", column_name := "id" }

/-- A sample table comment. -/
def tComment : Comment :=
  { schema_name := "public", table_name := "t1",
    column_name := "", comment := "the table" }

/-- A sample column comment. -/
def cComment : Comment :=
  { schema_name := "public", table_name := "t1",
    column_name := "id", comment := "the id" }

/-- A sample Pg create-table statement exercising every entity list. -/
def sampleStmt : PgCreateTableStatement :=
  { table := sampleTable, table_comments := [tComment], column_comments := [cComment],
    constraints := [pkCon, fkCon], indexes := [uqIdx, plainIdx],
    sequences := [seq1], sequence_owners := [seqOwner1] }

/-- A structural filter that filters out exactly the Table type. -/
def fsTableOnly : StructureType → Bool := fun t => decide (t = StructureType.Table)

/-- A structural filter that filters nothing out. -/
def fsNone : StructureType → Bool := fun _ => false

/-- A loader for a Redis extractor with the unsupported check_log
extract type. -/
def redisCheckLogLoader : IniLoader :=
  { sections := [],
    get := fun sec key =>
      if sec = "extractor" then
        if key = "db_type" then some "redis"
        else if key = "extract_type" then some "check_log"
        else none
      else none }

/-- A loader for a Kafka extractor with extract type struct (supported
nowhere else) and the required group/topic keys. -/
def kafkaLoader : IniLoader :=
  { sections := [],
    get := fun sec key =>
      if sec = "extractor" then
        if key = "db_type" then some "kafka"
        else if key = "extract_type" then some "struct"
        else if key = "group" then some "g1"
        else if key = "topic" then some "t1"
        else none
      else none }

/-- A loader for a MySQL CDC extractor without a heartbeat interval key. -/
def mysqlCdcLoader : IniLoader :=
  { sections := [],
    get := fun sec key =>
      if sec = "extractor" then
        if key = "db_type" then some "mysql"
        else if key = "extract_type" then some "cdc"
        else if key = "server_id" then some "1234"
        else none
      else none }

/-- The basic extractor configuration `mysqlCdcLoader` produces. -/
def mysqlCdcBasic : BasicExtractorConfig :=
  { db_type := DbType.Mysql, extract_type := ExtractType.Cdc, url := "" }

/-- The extractor configuration `mysqlCdcLoader` produces. -/
def mysqlCdcExtractor : ExtractorConfig :=
  ExtractorConfig.MysqlCdc "" "" 0 1234 false "" 10 "" "" ""

/-- The basic extractor configuration `kafkaLoader` produces. -/
def kafkaBasic : BasicExtractorConfig :=
  { db_type := DbType.Kafka, extract_type := ExtractType.Struct, url := "" }

/-- The extractor configuration `kafkaLoader` produces. -/
def kafkaExtractor : ExtractorConfig :=
  ExtractorConfig.Kafka "" "g1" "t1" 0 0 0

/-! ## Theorems -/

/-- C5: for every event whose table appears both in a configured do-list
(do_dbs/do_tbs) and in a configured ignore-list (ignore_dbs/ignore_tbs),
`should_keep` returns false: ignore-list presence wins over do-list
presence and the event is dropped. -/
theorem C5_ignore_list_beats_do_list (f : RdbFilter) (schema tb : String)
    (hdo : (schema, tb) ∈ f.do_tbs ∨ schema ∈ f.do_schemas)
    (hig : (schema, tb) ∈ f.ignore_tbs ∨ schema ∈ f.ignore_schemas) :
    f.should_keep schema tb = false := by
  rw [RdbFilter.should_keep, if_pos hig]

theorem C5_ignore_list_beats_do_list_witness :
    (("db1", "tb1") ∈ [("db1", "tb1")] ∨ "db1" ∈ ([] : List String)) ∧
    (("db1", "tb1") ∈ [("db1", "tb1")] ∨ "db1" ∈ ([] : List String)) ∧
    RdbFilter.should_keep
      { do_schemas := [], ignore_schemas := [],
        do_tbs := [("db1", "tb1")], ignore_tbs := [("db1", "tb1")] }
      "db1" "tb1" = false :=
  ⟨Or.inl (by decide), Or.inl (by decide),
    C5_ignore_list_beats_do_list
      { do_schemas := [], ignore_schemas := [],
        do_tbs := [("db1", "tb1")], ignore_tbs := [("db1", "tb1")] }
      "db1" "tb1" (Or.inl (by decide)) (Or.inl (by decide))⟩

/-- C6: every loaded pipeline configuration carries a buffer capacity in
item count: `buffer_size` is the value of the pipeline section's key or
defaults to 16000 when the key is absent; and an optional capacity in
megabytes: `buffer_memory_mb` is the key's value or 0 (unset) when the
key is absent. -/
theorem C6_pipeline_buffer_capacity (l : IniLoader) :
    ((l.get "pipeline" "buffer_size" = none →
        (TaskConfig.load_pipeline_config l).buffer_size = 16000) ∧
      (∀ v n, l.get "pipeline" "buffer_size" = some v → parse_nat? v = some n →
        (TaskConfig.load_pipeline_config l).buffer_size = n)) ∧
    ((l.get "pipeline" "buffer_memory_mb" = none →
        (TaskConfig.load_pipeline_config l).buffer_memory_mb = 0) ∧
      (∀ v n, l.get "pipeline" "buffer_memory_mb" = some v → parse_nat? v = some n →
        (TaskConfig.load_pipeline_config l).buffer_memory_mb = n)) := by
  refine ⟨⟨fun h => ?_, fun v n hv hn => ?_⟩, fun h => ?_, fun v n hv hn => ?_⟩
  · simp only [TaskConfig.load_pipeline_config, TaskConfig.PIPELINE,
      IniLoader.get_with_default_nat, h]
    split <;> simp
  · simp only [TaskConfig.load_pipeline_config, TaskConfig.PIPELINE,
      IniLoader.get_with_default_nat, hv, hn]
    split <;> simp
  · simp only [TaskConfig.load_pipeline_config, TaskConfig.PIPELINE,
      IniLoader.get_optional_nat, h]
    split <;> simp
  · simp only [TaskConfig.load_pipeline_config, TaskConfig.PIPELINE,
      IniLoader.get_optional_nat, hv, Option.bind_some, hn]
    split <;> simp [hn]

theorem C6_pipeline_buffer_capacity_witness :
    emptyLoader.get "pipeline" "buffer_size" = none ∧
    (TaskConfig.load_pipeline_config emptyLoader).buffer_size = 16000 ∧
    emptyLoader.get "pipeline" "buffer_memory_mb" = none ∧
    (TaskConfig.load_pipeline_config emptyLoader).buffer_memory_mb = 0 :=
  ⟨rfl, (C6_pipeline_buffer_capacity emptyLoader).1.1 rfl, rfl,
    (C6_pipeline_buffer_capacity emptyLoader).2.1 rfl⟩

/-- C9: after `load_pipeline_config`, the counter time window equals the
raw key value when that is nonzero, and the checkpoint interval when the
key is absent or zero; hence it is nonzero whenever the checkpoint
interval is nonzero. -/
theorem C9_counter_time_window_nonzero (l : IniLoader) :
    ((TaskConfig.load_pipeline_config l).counter_time_window_secs =
      if l.get_optional_nat "pipeline" "counter_time_window_secs" = 0 then
        (TaskConfig.load_pipeline_config l).checkpoint_interval_secs
      else l.get_optional_nat "pipeline" "counter_time_window_secs") ∧
    ((TaskConfig.load_pipeline_config l).checkpoint_interval_secs ≠ 0 →
      (TaskConfig.load_pipeline_config l).counter_time_window_secs ≠ 0) := by
  constructor
  · simp only [TaskConfig.load_pipeline_config, TaskConfig.PIPELINE]
    split <;> simp_all
  · intro h
    simp only [TaskConfig.load_pipeline_config, TaskConfig.PIPELINE] at h ⊢
    split <;> simp_all

theorem C9_counter_time_window_nonzero_witness :
    (TaskConfig.load_pipeline_config emptyLoader).checkpoint_interval_secs ≠ 0 ∧
    (TaskConfig.load_pipeline_config emptyLoader).counter_time_window_secs ≠ 0 :=
  ⟨by decide, (C9_counter_time_window_nonzero emptyLoader).2 (by decide)⟩

/-- C3: `filter_dmls` returns a triple of kept rows and optional first
dropped schema/table whenever no input event is malformed, and it
returns an error only when some input event is malformed (an Update with
neither image), that error being a `DataError`; an unknown schema/table
alone never causes a failure. -/
theorem C3_filter_dmls_fails_only_on_malformed (f : RdbFilter) (datas : List DtData) :
    ((∀ d ∈ datas, ¬ d.malformed) → ∃ res, filter_dmls f datas = .ok res) ∧
    (∀ e, filter_dmls f datas = .error e →
      (∃ msg, e = Error.DataError msg) ∧ ∃ d ∈ datas, d.malformed) := by
  induction datas with
  | nil => simp [filter_dmls]
  | cons d rest ih =>
    cases d with
    | Dml r =>
      by_cases hm : r.row_type = .Update ∧ r.before = none ∧ r.after = none
      · refine ⟨fun h =>
          absurd (show (DtData.Dml r).malformed from hm) (h _ (by simp)),
          fun e he => ?_⟩
        simp only [filter_dmls, if_pos hm, Except.error.injEq] at he
        exact ⟨⟨_, he.symm⟩, DtData.Dml r, by simp, hm⟩
      · cases hres : filter_dmls f rest with
        | ok res =>
          obtain ⟨kept, ds, dt⟩ := res
          constructor
          · intro h
            by_cases hk : f.should_keep r.schema r.tb
            · exact ⟨(r :: kept, ds, dt),
                by simp [filter_dmls, hm, hres, hk, bind, Except.bind]⟩
            · exact ⟨(kept, some r.schema, some r.tb),
                by simp [filter_dmls, hm, hres, hk, bind, Except.bind]⟩
          · intro e he
            by_cases hk : f.should_keep r.schema r.tb <;>
              simp [filter_dmls, hm, hres, hk, bind, Except.bind] at he
        | error e0 =>
          constructor
          · intro h
            obtain ⟨res, hres2⟩ := ih.1 fun x hx => h x (by simp [hx])
            rw [hres2] at hres
            exact absurd hres (by simp)
          · intro e he
            simp only [filter_dmls, if_neg hm, hres, bind, Except.bind,
              Except.error.injEq] at he
            subst he
            obtain ⟨hmsg, x, hx, hxm⟩ := ih.2 e0 hres
            exact ⟨hmsg, x, by simp [hx], hxm⟩
    | Ddl schema tb definition =>
      refine ⟨fun h => ih.1 fun x hx => h x (by simp [hx]), fun e he => ?_⟩
      obtain ⟨hmsg, x, hx, hxm⟩ := ih.2 e (by simpa [filter_dmls] using he)
      exact ⟨hmsg, x, by simp [hx], hxm⟩
    | Heartbeat =>
      refine ⟨fun h => ih.1 fun x hx => h x (by simp [hx]), fun e he => ?_⟩
      obtain ⟨hmsg, x, hx, hxm⟩ := ih.2 e (by simpa [filter_dmls] using he)
      exact ⟨hmsg, x, by simp [hx], hxm⟩
    | Begin =>
      refine ⟨fun h => ih.1 fun x hx => h x (by simp [hx]), fun e he => ?_⟩
      obtain ⟨hmsg, x, hx, hxm⟩ := ih.2 e (by simpa [filter_dmls] using he)
      exact ⟨hmsg, x, by simp [hx], hxm⟩
    | Commit =>
      refine ⟨fun h => ih.1 fun x hx => h x (by simp [hx]), fun e he => ?_⟩
      obtain ⟨hmsg, x, hx, hxm⟩ := ih.2 e (by simpa [filter_dmls] using he)
      exact ⟨hmsg, x, by simp [hx], hxm⟩

theorem C3_filter_dmls_fails_only_on_malformed_witness :
    (∀ d ∈ [DtData.Dml sampleUnknownRow], ¬ d.malformed) ∧
    ∃ res, filter_dmls sampleFilter [DtData.Dml sampleUnknownRow] = .ok res :=
  ⟨by decide,
    (C3_filter_dmls_fails_only_on_malformed sampleFilter
      [DtData.Dml sampleUnknownRow]).1 (by decide)⟩

/-- C4: when no input event is malformed, `filter_dmls` returns exactly
the kept rows together with the schema and table of the FIRST dropped
row mutation in input order (or `none` when nothing is dropped); rows
dropped later, even from distinct schema/tables, are not reported. -/
theorem C4_first_dropped_only (f : RdbFilter) (datas : List DtData)
    (h : ∀ d ∈ datas, ¬ d.malformed) :
    filter_dmls f datas =
      .ok (kept_rows f datas, (first_dropped f datas).map RowData.schema,
        (first_dropped f datas).map RowData.tb) := by
  induction datas with
  | nil => simp [filter_dmls, kept_rows, first_dropped]
  | cons d rest ih =>
    have hrest : ∀ x ∈ rest, ¬ x.malformed := fun x hx => h x (by simp [hx])
    cases d with
    | Dml r =>
      have hm : ¬ (r.row_type = .Update ∧ r.before = none ∧ r.after = none) :=
        h (DtData.Dml r) (by simp)
      by_cases hk : f.should_keep r.schema r.tb <;>
        simp [filter_dmls, hm, hk, ih hrest, bind, Except.bind,
          kept_rows, first_dropped, List.filterMap_cons, List.findSome?_cons]
    | Ddl schema tb definition =>
      simp [filter_dmls, ih hrest, kept_rows, first_dropped,
        List.filterMap_cons, List.findSome?_cons]
    | Heartbeat =>
      simp [filter_dmls, ih hrest, kept_rows, first_dropped,
        List.filterMap_cons, List.findSome?_cons]
    | Begin =>
      simp [filter_dmls, ih hrest, kept_rows, first_dropped,
        List.filterMap_cons, List.findSome?_cons]
    | Commit =>
      simp [filter_dmls, ih hrest, kept_rows, first_dropped,
        List.filterMap_cons, List.findSome?_cons]

theorem C4_first_dropped_only_witness :
    (∀ d ∈ sampleDatas, ¬ d.malformed) ∧
    filter_dmls sampleFilter sampleDatas =
      .ok ([sampleRow1], some "db2", some "t2") :=
  ⟨by decide,
    (C4_first_dropped_only sampleFilter sampleDatas (by decide)).trans rfl⟩

/-- A `filterMap` whose function is an if-then-some/none is a `filter`
followed by a `map`. -/
theorem filterMap_of_if {α β : Type} (p : α → Bool) (g : α → β) (l : List α) :
    (l.filterMap fun a => if p a then some (g a) else none) =
      (l.filter p).map g := by
  induction l with
  | nil => rfl
  | cons a l ih =>
    by_cases h : p a <;> simp [List.filterMap_cons, List.filter_cons, h, ih]

/-- C2: `to_sqls` emits the sequence/CREATE TABLE/sequence-owner/comment
block exactly when the Table structure type passes the filter, keeps a
constraint according to the Table decision when it is primary/unique and
the Constraint decision otherwise, and keeps an index according to the
Table decision when it is unique and the Index decision otherwise; in
particular, when Table is filtered out, only non-primary/non-unique
constraints (gated by Constraint) and non-unique indexes (gated by
Index) can be emitted. -/
theorem C2_to_sqls_structure_filter (stmt : PgCreateTableStatement)
    (fs : StructureType → Bool) :
    PgCreateTableStatement.to_sqls stmt fs =
      (if fs StructureType.Table then [] else PgCreateTableStatement.table_block stmt) ++
        (stmt.constraints.filter (PgCreateTableStatement.constraint_kept fs)).map
          PgCreateTableStatement.constraint_entry ++
        (stmt.indexes.filter (PgCreateTableStatement.index_kept fs)).map
          PgCreateTableStatement.index_entry ∧
    (fs StructureType.Table = true →
      PgCreateTableStatement.to_sqls stmt fs =
        (stmt.constraints.filter fun c =>
            !PgCreateTableStatement.pk_or_unique c && !fs StructureType.Constraint).map
          PgCreateTableStatement.constraint_entry ++
        (stmt.indexes.filter fun i =>
            !(decide (i.index_kind = IndexKind.Unique)) && !fs StructureType.Index).map
          PgCreateTableStatement.index_entry) := by
  have hcl : ∀ l : List Constraint,
      (List.filterMap (fun i : Constraint =>
        let skip := match i.constraint_type with
          | .Primary | .Unique => fs StructureType.Table
          | _ => fs StructureType.Constraint
        if skip then none
        else some ("constraint." ++ i.schema_name ++ "." ++ i.table_name ++ "." ++
          i.constraint_name, PgCreateTableStatement.constraint_to_sql i)) l) =
      (l.filter (PgCreateTableStatement.constraint_kept fs)).map
        PgCreateTableStatement.constraint_entry := by
    intro l
    induction l with
    | nil => rfl
    | cons c l ih =>
      rw [List.filterMap_cons, List.filter_cons]
      cases h : c.constraint_type <;>
        simp only [PgCreateTableStatement.constraint_kept,
          PgCreateTableStatement.pk_or_unique, PgCreateTableStatement.constraint_entry,
          h, ih] <;>
        cases fs StructureType.Table <;> cases fs StructureType.Constraint <;>
        simp [ih, PgCreateTableStatement.constraint_entry]
  have hil : ∀ l : List Index,
      (List.filterMap (fun i : Index =>
        let skip := match i.index_kind with
          | .Unique => fs StructureType.Table
          | _ => fs StructureType.Index
        if skip then none
        else some ("index." ++ i.schema_name ++ "." ++ i.table_name ++ "." ++
          i.index_name, PgCreateTableStatement.index_to_sql i)) l) =
      (l.filter (PgCreateTableStatement.index_kept fs)).map
        PgCreateTableStatement.index_entry := by
    intro l
    induction l with
    | nil => rfl
    | cons c l ih =>
      rw [List.filterMap_cons, List.filter_cons]
      cases h : c.index_kind <;>
        simp only [PgCreateTableStatement.index_kept,
          PgCreateTableStatement.index_entry, h, ih] <;>
        cases fs StructureType.Table <;> cases fs StructureType.Index <;>
        simp [ih, PgCreateTableStatement.index_entry]
  have hmain : PgCreateTableStatement.to_sqls stmt fs =
      (if fs StructureType.Table then [] else PgCreateTableStatement.table_block stmt) ++
        (stmt.constraints.filter (PgCreateTableStatement.constraint_kept fs)).map
          PgCreateTableStatement.constraint_entry ++
        (stmt.indexes.filter (PgCreateTableStatement.index_kept fs)).map
          PgCreateTableStatement.index_entry := by
    rw [PgCreateTableStatement.to_sqls, hcl, hil]
    cases ht : fs StructureType.Table <;> rfl
  refine ⟨hmain, fun ht => ?_⟩
  rw [hmain, ht]
  have hc2 : PgCreateTableStatement.constraint_kept fs =
      fun c => !PgCreateTableStatement.pk_or_unique c && !fs StructureType.Constraint := by
    funext c
    simp only [PgCreateTableStatement.constraint_kept, ht]
    cases h : PgCreateTableStatement.pk_or_unique c <;> simp
  have hi2 : PgCreateTableStatement.index_kept fs =
      fun i => !(decide (i.index_kind = IndexKind.Unique)) && !fs StructureType.Index := by
    funext i
    simp only [PgCreateTableStatement.index_kept, ht]
    cases h : i.index_kind <;> simp [h]
  rw [hc2, hi2]
  simp

/-- Sorting by `ordinal_position` yields the same list for any two
permutations of a column list whose ordinal positions are pairwise
distinct. -/
theorem insertionSort_colLe_eq_of_perm (l1 l2 : List Column) (hp : l1.Perm l2)
    (hnd : l1.Pairwise fun a b => a.ordinal_position ≠ b.ordinal_position) :
    List.insertionSort PgCreateTableStatement.colLe l1 =
      List.insertionSort PgCreateTableStatement.colLe l2 := by
  have p1 := List.perm_insertionSort PgCreateTableStatement.colLe l1
  have p2 := List.perm_insertionSort PgCreateTableStatement.colLe l2
  have hnd1 : (List.insertionSort PgCreateTableStatement.colLe l1).Pairwise
      fun a b => a.ordinal_position ≠ b.ordinal_position :=
    ((p1.pairwise_iff fun h => Ne.symm h).mpr hnd)
  have hnd2 : (List.insertionSort PgCreateTableStatement.colLe l2).Pairwise
      fun a b => a.ordinal_position ≠ b.ordinal_position :=
    (((p2.trans hp.symm).pairwise_iff fun h => Ne.symm h).mpr hnd)
  have hs1 := List.sorted_insertionSort PgCreateTableStatement.colLe l1
  have hs2 := List.sorted_insertionSort PgCreateTableStatement.colLe l2
  have hlt1 : List.Sorted colLt (List.insertionSort PgCreateTableStatement.colLe l1) :=
    (hs1.and hnd1).imp fun h => Nat.lt_of_le_of_ne h.1 h.2
  have hlt2 : List.Sorted colLt (List.insertionSort PgCreateTableStatement.colLe l2) :=
    (hs2.and hnd2).imp fun h => Nat.lt_of_le_of_ne h.1 h.2
  exact List.eq_of_perm_of_sorted (p1.trans (hp.trans p2.symm)) hlt1 hlt2

/-- C8: for column lists with pairwise-distinct ordinal positions,
`columns_to_sql` is invariant under permutation of the input (it lists
the columns in ascending ordinal order), and consequently `to_sqls` is
invariant under permutation of the table's columns. -/
theorem C8_columns_to_sql_perm_invariant (stmt : PgCreateTableStatement)
    (fs : StructureType → Bool) (cols1 cols2 : List Column)
    (hp : cols1.Perm cols2)
    (hnd : cols1.Pairwise fun a b => a.ordinal_position ≠ b.ordinal_position) :
    PgCreateTableStatement.columns_to_sql cols1 =
      PgCreateTableStatement.columns_to_sql cols2 ∧
    PgCreateTableStatement.to_sqls
        { stmt with table := { stmt.table with columns := cols1 } } fs =
      PgCreateTableStatement.to_sqls
        { stmt with table := { stmt.table with columns := cols2 } } fs := by
  have hsort := insertionSort_colLe_eq_of_perm cols1 cols2 hp hnd
  have hcols : PgCreateTableStatement.columns_to_sql cols1 =
      PgCreateTableStatement.columns_to_sql cols2 := by
    rw [PgCreateTableStatement.columns_to_sql,
      PgCreateTableStatement.columns_to_sql, hsort]
  refine ⟨hcols, ?_⟩
  have htab : PgCreateTableStatement.table_to_sql
      { stmt.table with columns := cols1 } =
      PgCreateTableStatement.table_to_sql { stmt.table with columns := cols2 } := by
    simp [PgCreateTableStatement.table_to_sql, hcols]
  simp [PgCreateTableStatement.to_sqls, htab]

/-- C1: for every configuration whose extractor db-type/extract-type pair
is unsupported, `load_extractor_config` fails with a `ConfigError`, and
`TaskConfig::new` therefore also fails with that `ConfigError` — no
`TaskConfig` value is constructed. -/
theorem C1_unsupported_pair_is_config_error (l : IniLoader)
    (fsys : String → Option String) (ds es : String) (dt : DbType) (et : ExtractType)
    (h1 : l.get "extractor" "db_type" = some ds)
    (h2 : l.get "extractor" "extract_type" = some es)
    (h3 : DbType.from_str ds = .ok dt)
    (h4 : ExtractType.from_str es = .ok et)
    (h5 : extract_supported dt et = false) :
    (∃ msg, TaskConfig.load_extractor_config l = .error (.ConfigError msg)) ∧
    (∃ msg, TaskConfig.new l fsys = .error (.ConfigError msg)) := by
  have hext : ∃ msg, TaskConfig.load_extractor_config l = .error (.ConfigError msg) := by
    rw [TaskConfig.load_extractor_config]
    simp only [TaskConfig.EXTRACTOR, TaskConfig.DB_TYPE, IniLoader.get_required_str,
      h1, h2, h3, h4]
    cases dt <;> cases et <;> simp_all [extract_supported, bind, Except.bind]
  obtain ⟨msg, hmsg⟩ := hext
  refine ⟨⟨msg, hmsg⟩, msg, ?_⟩
  rw [TaskConfig.new]
  simp [hmsg, bind, Except.bind]

/-- C10: for db-type Kafka, `load_extractor_config` accepts every
extract type: whenever the required `group` and `topic` keys are
present, it succeeds and builds the Kafka extractor configuration,
never returning the unsupported-extract-type `ConfigError`. -/
theorem C10_kafka_accepts_every_extract_type (l : IniLoader)
    (ds es g t : String) (et : ExtractType)
    (h1 : l.get "extractor" "db_type" = some ds)
    (h2 : l.get "extractor" "extract_type" = some es)
    (h3 : DbType.from_str ds = .ok .Kafka)
    (h4 : ExtractType.from_str es = .ok et)
    (hg : l.get "extractor" "group" = some g)
    (ht : l.get "extractor" "topic" = some t) :
    TaskConfig.load_extractor_config l = .ok
      ({ db_type := .Kafka, extract_type := et,
         url := l.get_optional_str "extractor" "url" },
       .Kafka (l.get_optional_str "extractor" "url") g t
         (l.get_optional_nat "extractor" "partition")
         (l.get_optional_nat "extractor" "offset")
         (l.get_optional_nat "extractor" "ack_interval_secs")) := by
  rw [TaskConfig.load_extractor_config]
  simp [TaskConfig.EXTRACTOR, TaskConfig.DB_TYPE, TaskConfig.URL,
    IniLoader.get_required_str, h1, h2, h3, h4, hg, ht, bind, Except.bind]

/-- C7: every successfully loaded CDC extractor configuration for the
MySQL, Pg, Mongo and Redis db types carries the heartbeat interval read
from the extractor section's `heartbeat_interval_secs` key, defaulting
to 10 when the key is absent. -/
theorem C7_cdc_heartbeat_interval (l : IniLoader) (ds es : String)
    (dt : DbType) (b : BasicExtractorConfig) (c : ExtractorConfig)
    (h1 : l.get "extractor" "db_type" = some ds)
    (h2 : l.get "extractor" "extract_type" = some es)
    (h3 : DbType.from_str ds = .ok dt)
    (h4 : ExtractType.from_str es = .ok .Cdc)
    (hdt : dt = .Mysql ∨ dt = .Pg ∨ dt = .Mongo ∨ dt = .Redis)
    (hok : TaskConfig.load_extractor_config l = .ok (b, c)) :
    c.heartbeat_interval? =
      some (l.get_with_default_nat "extractor" "heartbeat_interval_secs" 10) := by
  rw [TaskConfig.load_extractor_config] at hok
  simp only [TaskConfig.EXTRACTOR, TaskConfig.DB_TYPE, TaskConfig.HEARTBEAT_INTERVAL_SECS,
    IniLoader.get_required_str, h1, h2, h3, h4] at hok
  rcases hdt with rfl | rfl | rfl | rfl
  · cases hsid : l.get "extractor" "server_id" with
    | none => simp_all [IniLoader.get_required_nat, bind, Except.bind]
    | some v =>
      cases hn : parse_nat? v with
      | none => simp_all [IniLoader.get_required_nat, bind, Except.bind]
      | some n =>
        simp_all [IniLoader.get_required_nat, bind, Except.bind]
        obtain ⟨hb, hc⟩ := hok
        subst hc
        simp [ExtractorConfig.heartbeat_interval?]
  · cases hslot : l.get "extractor" "slot_name" with
    | none => simp_all [bind, Except.bind]
    | some s =>
      simp_all [bind, Except.bind]
      obtain ⟨hb, hc⟩ := hok
      subst hc
      simp [ExtractorConfig.heartbeat_interval?]
  · simp_all [bind, Except.bind]
    obtain ⟨hb, hc⟩ := hok
    subst hc
    simp [ExtractorConfig.heartbeat_interval?]
  · simp_all [bind, Except.bind]
    obtain ⟨hb, hc⟩ := hok
    subst hc
    simp [ExtractorConfig.heartbeat_interval?]

theorem C2_to_sqls_structure_filter_witness :
    fsTableOnly StructureType.Table = true ∧
    PgCreateTableStatement.to_sqls sampleStmt fsTableOnly =
      [("constraint.public.t1.t1_fk",
        "ALTER TABLE \"public\".\"t1\" ADD CONSTRAINT \"t1_fk\" FOREIGN KEY (id) REFERENCES t0(id)"),
       ("index.public.t1.t1_idx",
        "CREATE INDEX IF NOT EXISTS t1_idx ON public.t1 (name) TABLESPACE pg_default")] :=
  ⟨rfl, ((C2_to_sqls_structure_filter sampleStmt fsTableOnly).2 rfl).trans rfl⟩

theorem C8_columns_to_sql_perm_invariant_witness :
    ([colB, colA] : List Column).Perm [colA, colB] ∧
    ([colB, colA] : List Column).Pairwise
      (fun a b => a.ordinal_position ≠ b.ordinal_position) ∧
    PgCreateTableStatement.columns_to_sql [colB, colA] =
      PgCreateTableStatement.columns_to_sql [colA, colB] ∧
    PgCreateTableStatement.columns_to_sql [colB, colA] =
      "\"id\" int4 NOT NULL GENERATED ALWAYS AS IDENTITY ,\"name\" text DEFAULT 'x'::text " :=
  ⟨by decide, by decide,
    (C8_columns_to_sql_perm_invariant sampleStmt fsNone [colB, colA] [colA, colB]
      (by decide) (by decide)).1, rfl⟩

theorem C1_unsupported_pair_is_config_error_witness :
    redisCheckLogLoader.get "extractor" "db_type" = some "redis" ∧
    redisCheckLogLoader.get "extractor" "extract_type" = some "check_log" ∧
    DbType.from_str "redis" = .ok DbType.Redis ∧
    ExtractType.from_str "check_log" = .ok ExtractType.CheckLog ∧
    extract_supported DbType.Redis ExtractType.CheckLog = false ∧
    ∃ msg, TaskConfig.new redisCheckLogLoader (fun _ => none) =
      .error (.ConfigError msg) :=
  ⟨rfl, rfl, rfl, rfl, rfl,
    (C1_unsupported_pair_is_config_error redisCheckLogLoader (fun _ => none)
      "redis" "check_log" DbType.Redis ExtractType.CheckLog rfl rfl rfl rfl rfl).2⟩

theorem C10_kafka_accepts_every_extract_type_witness :
    kafkaLoader.get "extractor" "group" = some "g1" ∧
    kafkaLoader.get "extractor" "topic" = some "t1" ∧
    TaskConfig.load_extractor_config kafkaLoader = .ok (kafkaBasic, kafkaExtractor) :=
  ⟨rfl, rfl,
    (C10_kafka_accepts_every_extract_type kafkaLoader "kafka" "struct" "g1" "t1"
      ExtractType.Struct rfl rfl rfl rfl rfl rfl).trans rfl⟩

theorem C7_cdc_heartbeat_interval_witness :
    TaskConfig.load_extractor_config mysqlCdcLoader =
      .ok (mysqlCdcBasic, mysqlCdcExtractor) ∧
    mysqlCdcExtractor.heartbeat_interval? = some 10 :=
  ⟨rfl,
    (C7_cdc_heartbeat_interval mysqlCdcLoader "mysql" "cdc" DbType.Mysql
      mysqlCdcBasic mysqlCdcExtractor rfl rfl rfl rfl (Or.inl rfl) rfl).trans rfl⟩

end ApeDts
